import Mathlib

/-!
Verification of the typed request/response translation layer of the
mcp-grafana repository: Pydantic-style wire models (`grafana_types.py`),
the Grafana client's request construction (`client.py`), and the tool
argument adapters (`tools/incident.py`, `tools/prometheus.py`,
`tools/search.py`, `tools/datasources.py`).

JSON values are modelled by an inductive type whose numbers are integers
(every number this layer produces is integral).  A Pydantic model's
`model_dump` (with the repository's `exclude_unset=True, exclude_none=True,
by_alias=True` base configuration) becomes a function into `Json`, and
`model_validate` a partial function out of it.  Raising an exception is
modelled by `Except.error`; an HTTP call never happens on the error path.
-/

namespace McpGrafana

/-- A JSON value. Numbers are modelled as integers: every number appearing in
the wire models of this repository (ids, limits, intervalMs, epoch values) is
integral. -/
inductive Json where
  | null
  | bool (b : Bool)
  | num (n : Int)
  | str (s : String)
  | arr (elems : List Json)
  | obj (fields : List (String × Json))

/-- Whether a JSON value is `null` (Python's `value is None` test, the test
`exclude_none` applies to every dumped field). -/
def Json.isNull : Json → Bool
  | .null => true
  | _ => false

/-- First-match lookup of a key in a JSON object's field list (the semantics
of indexing a Python dict built from these pairs, whose keys are unique). -/
def jlookup : List (String × Json) → String → Option Json
  | [], _ => none
  | (k, v) :: rest, key => if k = key then some v else jlookup rest key

/-- The field list of a JSON object (`[]` for any other value). -/
def Json.objFields : Json → List (String × Json)
  | .obj fields => fields
  | _ => []

/-- `grafana_types.DatasourceRef`: a reference to a datasource, `{uid, type}`. -/
structure DatasourceRef where
  uid : String
  type : String

/-- `DatasourceRef.model_dump()`: both fields are required, neither has an
alias, so the dump is the plain two-field object. -/
def DatasourceRef.model_dump (d : DatasourceRef) : Json :=
  .obj [("uid", .str d.uid), ("type", .str d.type)]

/-- `DatasourceRef.model_validate`: both fields are required strings; unknown
keys are ignored (Pydantic's default `extra="ignore"`). -/
def DatasourceRef.model_validate : Json → Option DatasourceRef
  | .obj fields =>
    match jlookup fields "uid", jlookup fields "type" with
    | some (.str u), some (.str t) => some ⟨u, t⟩
    | _, _ => none
  | _ => none

/-- `grafana_types.Query`: the modelled fields (`refId`, `datasource`,
`queryType`, optional `intervalMs`) plus the open extra fields allowed and
kept by `model_config = ConfigDict(extra="allow")`.  `extra` keeps the
caller's key/value pairs in insertion order, as Pydantic's
`__pydantic_extra__` does. -/
structure Query where
  ref_id : String
  datasource : DatasourceRef
  query_type : String
  interval_ms : Option Int
  extra : List (String × Json)

/-- The wire names of `Query`'s modelled fields (its aliases). A key sent to
the constructor under one of these names populates the field, never the extra
map, so a `Query` built by Pydantic has no extra key among them. -/
def queryModeledKeys : List String := ["refId", "datasource", "queryType", "intervalMs"]

/-- `Query.model_dump()` under the custom base model: aliases are used,
`interval_ms` is dropped when it is `None` (`exclude_none`) or unset
(`exclude_unset`), and extra fields follow the declared fields in insertion
order, those whose value is `None` dropped by `exclude_none` as well. -/
def Query.model_dump (q : Query) : Json :=
  .obj (
    [("refId", .str q.ref_id),
     ("datasource", q.datasource.model_dump),
     ("queryType", .str q.query_type)]
    ++ (match q.interval_ms with
        | some v => [("intervalMs", Json.num v)]
        | none => [])
    ++ q.extra.filter (fun kv => !kv.2.isNull))

/-- `Query.model_validate`: the three required fields are read under their
aliases; `intervalMs` may be absent or `null` (both give `None`); every field
not named by an alias is kept, in order, as an extra field. -/
def Query.model_validate : Json → Option Query
  | .obj fields => do
    let refId ← match jlookup fields "refId" with
      | some (.str s) => some s
      | _ => none
    let ds ← match jlookup fields "datasource" with
      | some j => DatasourceRef.model_validate j
      | none => none
    let qt ← match jlookup fields "queryType" with
      | some (.str s) => some s
      | _ => none
    let interval ← match jlookup fields "intervalMs" with
      | none => some Option.none
      | some (.num v) => some (some v)
      | some .null => some Option.none
      | some _ => none
    some { ref_id := refId, datasource := ds, query_type := qt,
           interval_ms := interval,
           extra := fields.filter (fun kv => !queryModeledKeys.contains kv.1) }
  | _ => none

example :
    Query.model_validate
      (Query.model_dump
        { ref_id := "A", datasource := ⟨"prometheus", "prometheus"⟩,
          query_type := "range", interval_ms := some 10000,
          extra := [("expr", Json.str "node_load1")] })
      = some { ref_id := "A", datasource := ⟨"prometheus", "prometheus"⟩,
               query_type := "range", interval_ms := some 10000,
               extra := [("expr", Json.str "node_load1")] } := rfl

@[simp]
lemma jlookup_nil (key : String) : jlookup [] key = none := rfl

@[simp]
lemma jlookup_cons (k : String) (v : Json) (rest : List (String × Json)) (key : String) :
    jlookup ((k, v) :: rest) key = if k = key then some v else jlookup rest key := rfl

lemma jlookup_eq_none_of (l : List (String × Json)) (key : String)
    (h : ∀ kv ∈ l, kv.1 ≠ key) : jlookup l key = none := by
  induction l with
  | nil => rfl
  | cons kv rest ih =>
    obtain ⟨k, v⟩ := kv
    simp only [jlookup_cons]
    rw [if_neg (h (k, v) (List.mem_cons_self _ _))]
    exact ih fun kv hm => h kv (List.mem_cons_of_mem _ hm)

lemma jlookup_append_of_none (l1 l2 : List (String × Json)) (key : String)
    (h : ∀ kv ∈ l1, kv.1 ≠ key) :
    jlookup (l1 ++ l2) key = jlookup l2 key := by
  induction l1 with
  | nil => rfl
  | cons kv rest ih =>
    obtain ⟨k, v⟩ := kv
    simp only [List.cons_append, jlookup_cons]
    rw [if_neg (h (k, v) (List.mem_cons_self _ _))]
    exact ih fun kv hm => h kv (List.mem_cons_of_mem _ hm)

/-- `DatasourceRef` survives a dump/validate round trip. -/
lemma datasourceRef_roundtrip (d : DatasourceRef) :
    DatasourceRef.model_validate d.model_dump = some d := rfl

/-- The non-null extra fields of a well-formed `Query` all pass the decode
side's "not a modelled key" filter. -/
lemma extra_filter_id (q : Query)
    (h : ∀ key ∈ q.extra.map Prod.fst, key ∉ queryModeledKeys) :
    (q.extra.filter (fun kv => !kv.2.isNull)).filter
        (fun kv => !queryModeledKeys.contains kv.1)
      = q.extra.filter (fun kv => !kv.2.isNull) := by
  apply List.filter_eq_self.mpr
  intro kv hkv
  have hmem : kv ∈ q.extra := (List.mem_filter.mp hkv).1
  have : kv.1 ∉ queryModeledKeys := h kv.1 (List.mem_map_of_mem Prod.fst hmem)
  simpa using this

/-- C1, amended part. For every `Query` whose extra keys avoid the modelled
wire names (as Pydantic construction guarantees), decoding the encoding
succeeds and gives back the query with its null-valued extras removed, and
re-encoding that result reproduces the first encoding exactly. -/
theorem query_roundtrip_encode_decode (q : Query)
    (h : ∀ key ∈ q.extra.map Prod.fst, key ∉ queryModeledKeys) :
    Query.model_validate (Query.model_dump q)
        = some { q with extra := q.extra.filter (fun kv => !kv.2.isNull) }
      ∧ Query.model_dump { q with extra := q.extra.filter (fun kv => !kv.2.isNull) }
        = Query.model_dump q := by
  obtain ⟨rid, ds, qt, iv, ex⟩ := q
  have hnm : ∀ kv ∈ ex.filter (fun kv => !kv.2.isNull), kv.1 ≠ "intervalMs" := by
    intro kv hkv hk
    have hmem : kv ∈ ex := (List.mem_filter.mp hkv).1
    have h1 : kv.1 ∉ queryModeledKeys := h kv.1 (List.mem_map_of_mem Prod.fst hmem)
    rw [hk] at h1
    simp [queryModeledKeys] at h1
  have hfe : List.filter (fun kv => !decide (kv.1 ∈ queryModeledKeys))
        (List.filter (fun kv => !kv.2.isNull) ex)
      = List.filter (fun kv => !kv.2.isNull) ex := by
    apply List.filter_eq_self.mpr
    intro kv hkv
    have hmem : kv ∈ ex := (List.mem_filter.mp hkv).1
    have h1 : kv.1 ∉ queryModeledKeys := h kv.1 (List.mem_map_of_mem Prod.fst hmem)
    simpa using h1
  have hE : (ex.filter (fun kv => !kv.2.isNull)).filter (fun kv => !kv.2.isNull)
      = ex.filter (fun kv => !kv.2.isNull) :=
    List.filter_eq_self.mpr fun kv hkv => (List.mem_filter.mp hkv).2
  refine ⟨?_, ?_⟩
  · cases iv with
    | none =>
      simp +decide [Query.model_dump, Query.model_validate, DatasourceRef.model_dump,
        DatasourceRef.model_validate, List.filter_cons,
        jlookup_eq_none_of _ _ hnm, hfe]
    | some v =>
      simp +decide [Query.model_dump, Query.model_validate, DatasourceRef.model_dump,
        DatasourceRef.model_validate, List.filter_cons, hfe]
  · simp only [Query.model_dump, hE]

/-- A `Query` a caller can build: one ordinary extra field (`expr`) and one
extra field whose value is JSON `null`. -/
def qNullExtra : Query :=
  { ref_id := "A", datasource := ⟨"prometheus", "prometheus"⟩,
    query_type := "range", interval_ms := none,
    extra := [("expr", Json.str "up"), ("foo", Json.null)] }

/-- C1, counterexample. The claim promises every caller-supplied extra key is
preserved through encode and decode, never dropped.  For the extra field
`foo = null`, `model_dump`'s `exclude_none` drops the key: the encoding has
no `foo` member, and the decoded query has lost it. -/
theorem query_extra_null_key_dropped :
    jlookup qNullExtra.extra "foo" = some Json.null
    ∧ jlookup (Json.objFields (Query.model_dump qNullExtra)) "foo" = none
    ∧ Query.model_validate (Query.model_dump qNullExtra)
        = some { qNullExtra with extra := [("expr", Json.str "up")] } :=
  ⟨rfl, rfl, rfl⟩

/-- A concrete well-formed `Query` (the shape `query_prometheus` builds). -/
def qRoundtripSample : Query :=
  { ref_id := "A", datasource := ⟨"prometheus", "prometheus"⟩,
    query_type := "range", interval_ms := some 10000,
    extra := [("expr", Json.str "node_load1")] }

/-- C1, witness: the round-trip theorem applied at a concrete query. -/
theorem query_roundtrip_encode_decode_witness :
    (∀ key ∈ qRoundtripSample.extra.map Prod.fst, key ∉ queryModeledKeys)
    ∧ (Query.model_validate (Query.model_dump qRoundtripSample)
        = some { qRoundtripSample with
                 extra := qRoundtripSample.extra.filter (fun kv => !kv.2.isNull) }
      ∧ Query.model_dump { qRoundtripSample with
                 extra := qRoundtripSample.extra.filter (fun kv => !kv.2.isNull) }
        = Query.model_dump qRoundtripSample) :=
  ⟨by decide, query_roundtrip_encode_decode qRoundtripSample (by decide)⟩

/-- `tools/incident.ListIncidentsArguments`: the caller-facing arguments of
the `list_incidents` tool.  `status` is `Literal["resolved", "active"] | None`
in the source; the string inside the literal is what the query string
interpolates, so it is modelled as the string itself. -/
structure ListIncidentsArguments where
  limit : Int := 10
  drill : Bool := false
  status : Option String := none

/-- `grafana_types.IncidentPreviewsQuery` (wire aliases `orderDirection`,
`orderField`, `queryString`). -/
structure IncidentPreviewsQuery where
  limit : Int
  order_direction : String
  order_field : String
  query_string : String

/-- `grafana_types.QueryIncidentPreviewsRequest` (wire alias
`includeCustomFieldValues`, a `Literal[True]`). -/
structure QueryIncidentPreviewsRequest where
  query : IncidentPreviewsQuery
  include_custom_field_values : Bool

/-- The wire request `tools/incident.list_incidents` builds from its
arguments before posting it. -/
def list_incidents_body (arguments : ListIncidentsArguments) : QueryIncidentPreviewsRequest :=
  let query_string :=
    (if !arguments.drill then "isdrill:false" else "")
      ++ (match arguments.status with
          | some s => " and status:" ++ s
          | none => "")
  { query :=
      { query_string := query_string,
        order_direction := "DESC",
        order_field := "createdTime",
        limit := arguments.limit },
    include_custom_field_values := true }

/-- C2. For every `ListIncidentsArguments`, the built wire request's
`query.queryString` is the concatenation of `"isdrill:false"` (when `drill`
is false, else the empty string) and `" and status:<status>"` (when a status
is provided); in particular the four enumerated argument combinations give
exactly the four enumerated strings. -/
theorem list_incidents_query_string (a : ListIncidentsArguments) :
    (list_incidents_body a).query.query_string
        = (if a.drill then "" else "isdrill:false")
          ++ (match a.status with
              | some s => " and status:" ++ s
              | none => "")
    ∧ (list_incidents_body { drill := false, status := none }).query.query_string
        = "isdrill:false"
    ∧ (list_incidents_body { drill := true, status := some "active" }).query.query_string
        = " and status:active"
    ∧ (list_incidents_body { drill := false, status := some "resolved" }).query.query_string
        = "isdrill:false and status:resolved"
    ∧ (list_incidents_body { drill := true, status := none }).query.query_string
        = "" := by
  refine ⟨?_, rfl, rfl, rfl, rfl⟩
  obtain ⟨l, d, s⟩ := a
  cases d <;> cases s <;> rfl

/-- A Python `datetime`, represented by its epoch time in microseconds (the
resolution of `datetime`) together with its `isoformat()` rendering. -/
structure PyDateTime where
  epochMicros : Int
  isoformat : String

/-- What a call of `tools/prometheus.query_prometheus` does before any result
comes back: either it raises (`ValueError`, the spec's ValidationError) with
no HTTP request issued, or it posts `/api/ds/query` with the given body
parts via `grafana_client.query(start, end, [query])`. -/
inductive QueryPrometheusOutcome where
  | validationError (msg : String)
  | dsQueryRequest (reqFrom reqTo : PyDateTime) (queries : List Query)

/-- `tools/prometheus.query_prometheus`, up to the point where the HTTP
request is issued.  `fromisoformat` stands for `datetime.fromisoformat`,
passed in as a parameter because its calendar arithmetic is Python library
behaviour none of the claims depend on. -/
def query_prometheus (fromisoformat : String → PyDateTime)
    (datasource_uid expr start_rfc3339 : String)
    (end_rfc3339 : Option String) (step_seconds : Option Int)
    (query_type : String) : QueryPrometheusOutcome :=
  if query_type = "range" ∧ (end_rfc3339 = none ∨ step_seconds = none) then
    .validationError
      "end_rfc3339 and step_seconds must be provided when query_type is 'range'"
  else
    let start := fromisoformat start_rfc3339
    let end_ := match end_rfc3339 with
      | some e => fromisoformat e
      | none => start
    let interval_ms := step_seconds.map (fun s => s * 1000)
    .dsQueryRequest start end_
      [{ ref_id := "A",
         datasource := { uid := datasource_uid, type := "prometheus" },
         query_type := query_type,
         interval_ms := interval_ms,
         extra := [("expr", Json.str expr)] }]

/-- C3. A range query missing its end time or its step raises the validation
error before any network call: the outcome is `validationError`, never a
`dsQueryRequest`. -/
theorem query_prometheus_range_requires_end_and_step
    (parse : String → PyDateTime) (uid expr start : String)
    (e : Option String) (s : Option Int) (h : e = none ∨ s = none) :
    query_prometheus parse uid expr start e s "range"
      = QueryPrometheusOutcome.validationError
          "end_rfc3339 and step_seconds must be provided when query_type is 'range'" := by
  unfold query_prometheus
  rw [if_pos ⟨rfl, h⟩]

/-- C3, witness: a range query with no end time, at concrete arguments. -/
theorem query_prometheus_range_requires_end_and_step_witness :
    ((none : Option String) = none ∨ (some 60 : Option Int) = none)
    ∧ query_prometheus (fun s => ⟨0, s⟩) "robustperception" "node_load1"
        "2025-01-01T00:00:00" none (some 60) "range"
      = QueryPrometheusOutcome.validationError
          "end_rfc3339 and step_seconds must be provided when query_type is 'range'" :=
  ⟨Or.inl rfl,
   query_prometheus_range_requires_end_and_step _ _ _ _ _ _ (Or.inl rfl)⟩

/-- C4, failing input. The docstring of `query_prometheus` says
`step_seconds` is ignored for instant queries and the claim says the built
`Query` omits `intervalMs`; but calling with `query_type="instant"` and
`step_seconds=60` builds a `Query` whose `intervalMs` is 60000.  (The
`end == start` half does hold for this call, as the outcome shows: both
request times are the parsed start.) -/
theorem query_prometheus_instant_keeps_interval_ms :
    query_prometheus (fun s => ⟨0, s⟩) "robustperception" "up"
        "2025-01-01T00:00:00" none (some 60) "instant"
      = QueryPrometheusOutcome.dsQueryRequest
          ⟨0, "2025-01-01T00:00:00"⟩ ⟨0, "2025-01-01T00:00:00"⟩
          [{ ref_id := "A",
             datasource := { uid := "robustperception", type := "prometheus" },
             query_type := "instant",
             interval_ms := some 60000,
             extra := [("expr", Json.str "up")] }] := rfl

/-- Regular expressions, standing for the compiled pattern
`re.compile(regex)` that `list_prometheus_metric_names` filters with. -/
inductive Regex where
  | fail
  | emp
  | lit (c : Char)
  | wildcard
  | seq (r1 r2 : Regex)
  | alt (r1 r2 : Regex)
  | star (r : Regex)

/-- Whether a regex accepts the empty string. -/
def Regex.nullable : Regex → Bool
  | .fail => false
  | .emp => true
  | .lit _ => false
  | .wildcard => false
  | .seq r1 r2 => r1.nullable && r2.nullable
  | .alt r1 r2 => r1.nullable || r2.nullable
  | .star _ => true

/-- Brzozowski derivative: the language of `r.deriv a` is the suffixes of
`r`'s words that start with `a`. -/
def Regex.deriv : Regex → Char → Regex
  | .fail, _ => .fail
  | .emp, _ => .fail
  | .lit c, a => if a = c then .emp else .fail
  | .wildcard, _ => .emp
  | .seq r1 r2, a =>
      if r1.nullable then .alt (.seq (r1.deriv a) r2) (r2.deriv a)
      else .seq (r1.deriv a) r2
  | .alt r1 r2, a => .alt (r1.deriv a) (r2.deriv a)
  | .star r, a => .seq (r.deriv a) (.star r)

/-- Whole-string acceptance (the semantics of Python's `re.fullmatch`). -/
def Regex.fullmatch : Regex → List Char → Bool
  | r, [] => r.nullable
  | r, c :: cs => (r.deriv c).fullmatch cs

/-- Truthiness of Python's `re.match`: acceptance anchored at position 0 that
need not consume the whole string, i.e. acceptance of some prefix. -/
def Regex.pymatch : Regex → List Char → Bool
  | r, [] => r.nullable
  | r, c :: cs => r.nullable || (r.deriv c).pymatch cs

/-- `re.match` accepts exactly the strings some prefix of which fully
matches: anchored at position 0, not required to reach the end. -/
lemma Regex.pymatch_iff (r : Regex) (cs : List Char) :
    r.pymatch cs = true ↔ ∃ p q, cs = p ++ q ∧ r.fullmatch p = true := by
  induction cs generalizing r with
  | nil =>
    constructor
    · intro h
      exact ⟨[], [], rfl, h⟩
    · rintro ⟨p, q, hpq, hm⟩
      have hp : p = [] := by
        cases p with
        | nil => rfl
        | cons a as => simp at hpq
      subst hp
      exact hm
  | cons c cs ih =>
    simp only [Regex.pymatch, Bool.or_eq_true]
    constructor
    · rintro (hn | hrec)
      · exact ⟨[], c :: cs, rfl, hn⟩
      · obtain ⟨p, q, hpq, hm⟩ := (ih (r.deriv c)).mp hrec
        exact ⟨c :: p, q, by rw [List.cons_append, hpq], hm⟩
    · rintro ⟨p, q, hpq, hm⟩
      cases p with
      | nil =>
        left
        exact hm
      | cons a as =>
        right
        rw [List.cons_append] at hpq
        injection hpq with h1 h2
        subst h1
        subst h2
        simp only [Regex.fullmatch] at hm
        exact (ih (r.deriv c)).mpr ⟨as, q, rfl, hm⟩

/-- `tools/prometheus.list_prometheus_metric_names`, given the label-value
list the server returned for `__name__` (order preserved): filter the names
through `compiled.match` (prefix-anchored), then `itertools.islice(matches,
start, stop)` with `start = (page - 1) * limit` and `stop = start + limit`,
which yields the elements with indices in `[start, stop)`. -/
def list_prometheus_metric_names
    (name_label_values : List String) (regex : Regex) (limit page : Nat) : List String :=
  let ms := name_label_values.filter (fun name => regex.pymatch name.data)
  let start := (page - 1) * limit
  (ms.drop start).take limit

/-- Python slice `l[a:b]`: the elements at positions `[a:b)`. -/
def pySlice {α : Type} (l : List α) (a b : Nat) : List α := (l.take b).drop a

/-- C5. For every label-value list, regex, limit and 1-indexed page, the tool
returns the matching names at positions `[(page-1)*limit : page*limit]` of
the filtered, order-preserving list, and a name matches exactly when the
regex accepts a prefix of it (anchored at position 0, not required to
consume the whole string: `match`, not `fullmatch`, not `search`). -/
theorem list_prometheus_metric_names_filter_paginate
    (values : List String) (regex : Regex) (limit page : Nat) (h : 1 ≤ page) :
    list_prometheus_metric_names values regex limit page
        = pySlice (values.filter (fun name => regex.pymatch name.data))
            ((page - 1) * limit) (page * limit)
    ∧ ∀ name : String, regex.pymatch name.data = true
        ↔ ∃ p q, name.data = p ++ q ∧ regex.fullmatch p = true := by
  refine ⟨?_, fun name => Regex.pymatch_iff regex name.data⟩
  obtain ⟨k, rfl⟩ : ∃ k, page = k + 1 := ⟨page - 1, by omega⟩
  simp only [list_prometheus_metric_names, pySlice, List.drop_take, Nat.add_sub_cancel]
  congr 1
  have hk : (k + 1) * limit = k * limit + limit := by ring
  omega

/-- The compiled form of the pattern `node`: matches names that start with
`node`. -/
def nodeRegex : Regex :=
  .seq (.lit 'n') (.seq (.lit 'o') (.seq (.lit 'd') (.lit 'e')))

/-- C5, witness: page 2 with limit 1 over three names, two of which match. -/
theorem list_prometheus_metric_names_filter_paginate_witness :
    1 ≤ 2
    ∧ (list_prometheus_metric_names ["node_load1", "up", "node_cpu"] nodeRegex 1 2
        = pySlice
            (["node_load1", "up", "node_cpu"].filter
              (fun name => nodeRegex.pymatch name.data))
            ((2 - 1) * 1) (2 * 1)
      ∧ ∀ name : String, nodeRegex.pymatch name.data = true
          ↔ ∃ p q, name.data = p ++ q ∧ nodeRegex.fullmatch p = true) :=
  ⟨by decide,
   list_prometheus_metric_names_filter_paginate ["node_load1", "up", "node_cpu"]
     nodeRegex 1 2 (by decide)⟩

example :
    list_prometheus_metric_names ["node_load1", "up", "node_cpu"] nodeRegex 1 2
      = ["node_cpu"] := rfl

/-- The operator of a `grafana_types.LabelMatcher`: one of the four literals
`=`, `!=`, `~`, `!~`. -/
inductive MatcherType where
  | eq
  | ne
  | regex
  | notRegex

/-- The operator's spelling, as interpolated into the matcher's rendering. -/
def MatcherType.render : MatcherType → String
  | .eq => "="
  | .ne => "!="
  | .regex => "~"
  | .notRegex => "!~"

/-- `grafana_types.LabelMatcher`; `type` defaults to `=`. -/
structure LabelMatcher where
  name : String
  value : String
  type : MatcherType := .eq

/-- `LabelMatcher.__str__`: the f-string interpolation of name, operator and
single-quoted value. -/
def LabelMatcher.render (m : LabelMatcher) : String :=
  m.name ++ m.type.render ++ "'" ++ m.value ++ "'"

/-- `grafana_types.Selector`: an ordered list of label matchers. -/
structure Selector where
  filters : List LabelMatcher

/-- `Selector.__str__`: join the matcher renderings with a comma-space
separator (`", ".join(...)`, embedded as `String.intercalate`) and wrap the
result in braces. -/
def Selector.render (s : Selector) : String :=
  "\x7b" ++ String.intercalate ", " (s.filters.map LabelMatcher.render) ++ "\x7d"

/-- The spec's description of joining: the pieces in order, each separated
from the next by the separator. -/
def pyJoin (sep : String) : List String → String
  | [] => ""
  | [x] => x
  | x :: y :: t => x ++ sep ++ pyJoin sep (y :: t)

lemma intercalate_go_eq (s : String) (t : List String) : ∀ a : String,
    String.intercalate.go a s t = pyJoin s (a :: t) := by
  induction t with
  | nil => intro a; rfl
  | cons b t ih =>
    intro a
    have h1 : String.intercalate.go a s (b :: t)
        = String.intercalate.go (a ++ s ++ b) s t := by
      simp [String.intercalate.go]
    rw [h1, ih (a ++ s ++ b)]
    cases t with
    | nil => rfl
    | cons c t' => simp [pyJoin, String.append_assoc]

/-- Core's `String.intercalate` (the embedding of Python's `str.join`) joins
the list exactly as the spec describes. -/
lemma intercalate_eq_pyJoin (s : String) (l : List String) :
    String.intercalate s l = pyJoin s l := by
  cases l with
  | nil => rfl
  | cons a t =>
    simp only [String.intercalate]
    exact intercalate_go_eq s t a

/-- C6. The rendering of a selector is deterministic and equals a brace pair
around its matchers' renderings in order joined by comma-space, each matcher
rendering as name, then operator, then the single-quoted value; the operator
defaults to `=`; and the one-matcher selector `job = node` renders exactly as
the claim's literal. -/
theorem selector_render_exact (sel : Selector) :
    sel.render
        = "\x7b" ++ pyJoin ", " (sel.filters.map (fun m =>
            m.name ++ m.type.render ++ "'" ++ m.value ++ "'")) ++ "\x7d"
    ∧ (∀ name value, ({ name := name, value := value } : LabelMatcher).type = MatcherType.eq)
    ∧ Selector.render ⟨[⟨"job", "node", .eq⟩]⟩ = "\x7bjob='node'\x7d" := by
  refine ⟨?_, fun name value => rfl, rfl⟩
  simp only [Selector.render, intercalate_eq_pyJoin]
  rfl

/-- `grafana_types.SearchDashboardsArguments`. `query` is required but
nullable (`str | None`, no default); every other field is optional.  For a
field with a non-`None` default (`starred`, `limit`, `page`), `none` means
the caller did not set it (`exclude_unset` then drops it) and `some v` means
it was set to `v` (`exclude_defaults` drops it when `v` equals the default).
For fields whose default is `None`, unset and explicitly-`None` dump
identically, so one `Option` covers both. -/
structure SearchDashboardsArguments where
  query : Option String
  tags : Option (List String) := none
  type : Option String := none
  dashboard_ids : Option (List Int) := none
  dashboard_uids : Option (List String) := none
  folder_uids : Option (List String) := none
  starred : Option Bool := none
  limit : Option Int := none
  page : Option Int := none

/-- `arguments.model_dump(exclude_defaults=True)` under the custom base
model, so with `exclude_unset=True, exclude_none=True, by_alias=True` as
well: a field appears iff it is set, its value is not `None`, and its value
differs from the field's default.  `default_limit` is
`grafana_settings.tools.search.limit` (1000 unless overridden), baked into
`limit`'s default. -/
def SearchDashboardsArguments.model_dump
    (default_limit : Int) (a : SearchDashboardsArguments) : List (String × Json) :=
  (match a.query with
   | some q => [("query", Json.str q)]
   | none => [])
  ++ (match a.tags with
      | some t => [("tags", Json.arr (t.map Json.str))]
      | none => [])
  ++ (match a.type with
      | some t => [("type", Json.str t)]
      | none => [])
  ++ (match a.dashboard_ids with
      | some l => [("dashboardIds", Json.arr (l.map Json.num))]
      | none => [])
  ++ (match a.dashboard_uids with
      | some l => [("dashboardUIDs", Json.arr (l.map Json.str))]
      | none => [])
  ++ (match a.folder_uids with
      | some l => [("folderUIDs", Json.arr (l.map Json.str))]
      | none => [])
  ++ (match a.starred with
      | some b => if b = false then [] else [("starred", Json.bool b)]
      | none => [])
  ++ (match a.limit with
      | some v => if v = default_limit then [] else [("limit", Json.num v)]
      | none => [])
  ++ (match a.page with
      | some v => if v = 1 then [] else [("page", Json.num v)]
      | none => [])

/-- `GrafanaClient.search_dashboards` up to the HTTP call: dump the
arguments, then run `if params["query"] is None: del params["query"]`.
Because the dump already dropped a `None` query (`exclude_none`), the index
raises `KeyError` exactly when `query` was `None`; the error is raised
before any request is issued. -/
def search_dashboards_params
    (default_limit : Int) (a : SearchDashboardsArguments) :
    Except String (List (String × Json)) :=
  let params := a.model_dump default_limit
  match jlookup params "query" with
  | none => .error "KeyError: 'query'"
  | some v =>
      if v.isNull then .ok (params.filter (fun kv => kv.1 ≠ "query"))
      else .ok params

/-- C7, failing input. With `query=None` (and everything else unset) the
claim promises a successful call whose parameters lack the `query` key; the
code instead raises `KeyError('query')` before the request, because
`model_dump`'s `exclude_none` already removed the key that
`search_dashboards` then indexes.  With `query="x"` the parameters are
exactly `query=x`, as the claim's second half says. -/
theorem search_dashboards_query_none_keyerror :
    search_dashboards_params 1000 { query := none } = .error "KeyError: 'query'"
    ∧ ∀ x : String,
        search_dashboards_params 1000 { query := some x }
          = .ok [("query", Json.str x)] :=
  ⟨rfl, fun _ => rfl⟩

/-- `ResponseWrapper[T].model_validate_json(response).data`, the envelope
unwrapping shared by the Prometheus metadata/label tools: parse
`{status: str, data: T}`, require both fields (ignoring any others,
Pydantic's default `extra="ignore"`), and project out `data`.  `validate` is
the Pydantic validator of the concrete `T` of the call site.  `Except.error`
is the `pydantic.ValidationError` a failed `model_validate_json` raises (the
spec's DecodeError). -/
def unwrap_data {T : Type} (validate : Json → Option T) : Json → Except String T
  | Json.obj fields =>
    match jlookup fields "status", jlookup fields "data" with
    | some (Json.str _), some d =>
        match validate d with
        | some v => Except.ok v
        | none => Except.error "DecodeError: data failed validation"
    | some (Json.str _), none => Except.error "DecodeError: data field required"
    | _, _ => Except.error "DecodeError: status field invalid or missing"
  | _ => Except.error "DecodeError: not an object"

/-- Validator for `T = list[str]` (the label-names call site). -/
def validateStringList : Json → Option (List String)
  | Json.arr elems =>
      elems.foldr
        (fun j acc => match j, acc with
          | Json.str s, some l => some (s :: l)
          | _, _ => none)
        (some [])
  | _ => none

/-- C8. Unwrapping an envelope whose `status` is any string and whose `data`
validates as `T` returns exactly the decoded `data`, whatever other fields
the envelope carries; an envelope with no `data` field is a decode error for
every field list, its `status` never consulted against `data`'s presence. -/
theorem unwrap_data_projects_data {T : Type} (validate : Json → Option T) :
    (∀ (fields : List (String × Json)) (s : String) (d : Json) (v : T),
        jlookup fields "status" = some (Json.str s) →
        jlookup fields "data" = some d →
        validate d = some v →
        unwrap_data validate (Json.obj fields) = Except.ok v)
    ∧ (∀ fields : List (String × Json),
        jlookup fields "data" = none →
        ∃ msg, unwrap_data validate (Json.obj fields) = Except.error msg) := by
  constructor
  · intro fields s d v hs hd hv
    simp [unwrap_data, hs, hd, hv]
  · intro fields hd
    match hs : jlookup fields "status" with
    | some (Json.str s) =>
        exact ⟨"DecodeError: data field required", by simp [unwrap_data, hs, hd]⟩
    | none =>
        exact ⟨"DecodeError: status field invalid or missing", by simp [unwrap_data, hs, hd]⟩
    | some Json.null =>
        exact ⟨"DecodeError: status field invalid or missing", by simp [unwrap_data, hs, hd]⟩
    | some (Json.bool b) =>
        exact ⟨"DecodeError: status field invalid or missing", by simp [unwrap_data, hs, hd]⟩
    | some (Json.num n) =>
        exact ⟨"DecodeError: status field invalid or missing", by simp [unwrap_data, hs, hd]⟩
    | some (Json.arr es) =>
        exact ⟨"DecodeError: status field invalid or missing", by simp [unwrap_data, hs, hd]⟩
    | some (Json.obj fs) =>
        exact ⟨"DecodeError: status field invalid or missing", by simp [unwrap_data, hs, hd]⟩

example :
    unwrap_data validateStringList
      (Json.obj [("status", Json.str "success"),
                 ("data", Json.arr [Json.str "a", Json.str "b"])])
      = Except.ok ["a", "b"] := rfl

example :
    unwrap_data validateStringList (Json.obj [("status", Json.str "error")])
      = Except.error "DecodeError: data field required" := rfl

/-- `str(math.floor(dt.timestamp() * 1000))`: the decimal string of the
floor of a datetime's millisecond epoch value.  `timestamp()` is
`epochMicros / 10^6` seconds, so the quantity floored is `epochMicros /
1000`, and flooring an integer divided by 1000 is `Int.fdiv` (floor
division). -/
def ds_query_time (d : PyDateTime) : String :=
  toString (Int.fdiv d.epochMicros 1000)

/-- The body `GrafanaClient.query` posts to `/api/ds/query`: `from` and `to`
as millisecond-epoch decimal strings, the queries dumped by alias. -/
def grafana_client_query_body (_from _to : PyDateTime) (queries : List Query) : Json :=
  Json.obj [("from", Json.str (ds_query_time _from)),
            ("to", Json.str (ds_query_time _to)),
            ("queries", Json.arr (queries.map Query.model_dump))]

/-- `grafana_types.AddActivityToIncidentArguments`, the body of the
incident-activity endpoint.  `event_time`'s wire alias is `eventTime` and
its type is `CustomDateTime`, whose `PlainSerializer` is
`lambda dt: dt.isoformat()`. -/
structure AddActivityToIncidentArguments where
  incident_id : String
  activity_kind : String
  body : String
  event_time : Option PyDateTime := none

/-- `AddActivityToIncidentArguments.model_dump()`: aliases, `eventTime`
serialized by the `CustomDateTime` ISO-8601 serializer, dropped when unset
or `None`. -/
def AddActivityToIncidentArguments.model_dump
    (a : AddActivityToIncidentArguments) : Json :=
  Json.obj
    ([("incidentId", Json.str a.incident_id),
      ("activityKind", Json.str a.activity_kind),
      ("body", Json.str a.body)]
     ++ (match a.event_time with
         | some t => [("eventTime", Json.str t.isoformat)]
         | none => []))

/-- C9. In the `/api/ds/query` body, `from` and `to` are always the decimal
string of the floor of the datetime's millisecond epoch value (floor of
`epochMicros / 1000`, stated against the rational division to pin down the
flooring), while the incident-activity body's `eventTime` is always the
datetime's `isoformat()` ISO-8601 string; each field gets its own encoding
for every datetime, so the two are never interchanged. -/
theorem time_encoding_per_field :
    (∀ (f t : PyDateTime) (queries : List Query),
        jlookup (Json.objFields (grafana_client_query_body f t queries)) "from"
            = some (Json.str (ds_query_time f))
          ∧ jlookup (Json.objFields (grafana_client_query_body f t queries)) "to"
            = some (Json.str (ds_query_time t)))
    ∧ (∀ d : PyDateTime, ds_query_time d = toString ⌊(d.epochMicros : ℚ) / 1000⌋)
    ∧ (∀ (a : AddActivityToIncidentArguments) (d : PyDateTime),
        a.event_time = some d →
        jlookup (Json.objFields a.model_dump) "eventTime"
          = some (Json.str d.isoformat)) := by
  refine ⟨fun f t queries => ⟨rfl, rfl⟩, fun d => ?_, fun a d hd => ?_⟩
  · have h : Int.fdiv d.epochMicros 1000 = ⌊(d.epochMicros : ℚ) / 1000⌋ := by
      have hfl := Rat.floor_intCast_div_natCast d.epochMicros 1000
      have he : Int.fdiv d.epochMicros 1000 = d.epochMicros / (1000 : ℤ) :=
        Int.fdiv_eq_ediv d.epochMicros (by norm_num)
      rw [he]
      rw [show ((1000 : ℕ) : ℤ) = (1000 : ℤ) from rfl] at hfl
      rw [← hfl]
      norm_num
    rw [ds_query_time, h]
  · simp [AddActivityToIncidentArguments.model_dump, Json.objFields, hd]

/-- What `GrafanaClient.get_datasource(uid, name)` does before any response:
raise `ValueError` when neither identifier is given (no request issued), else
GET the path chosen by the first branch that applies — `uid` first, so a
provided `uid` wins and `name` is never consulted. -/
def get_datasource (uid name : Option String) : Except String String :=
  match uid with
  | some u => .ok ("/api/datasources/uid/" ++ u)
  | none =>
      match name with
      | some n => .ok ("/api/datasources/name/" ++ n)
      | none => .error "uid or name must be provided"

/-- C10. With neither `uid` nor `name` the lookup raises `ValueError` before
any HTTP request; with both, the uid path is requested and the name is
ignored (the result is the uid path, independent of the name). -/
theorem get_datasource_uid_precedence :
    get_datasource none none = .error "uid or name must be provided"
    ∧ (∀ u n : String,
        get_datasource (some u) (some n) = .ok ("/api/datasources/uid/" ++ u))
    ∧ (∀ (u : String) (n n2 : Option String),
        get_datasource (some u) n = get_datasource (some u) n2) :=
  ⟨rfl, fun _ _ => rfl, fun _ _ _ => rfl⟩

end McpGrafana
